import Mathlib

/-!
Shallow embedding of the taskchampion-rb Ruby extension (the Rust sources
under `ext/taskchampion/src/`).  Machinery that is pure in the source
(UUID validation, the error classifier, negative-index resolution, the
operation variant accessors) is embedded as executable Lean functions;
stateful Rust methods become explicit state-passing functions; calls into
the external `taskchampion` engine crate are abstracted as function
parameters, so theorems quantify over the engine's behaviour.
-/

namespace TCRB

/-- The Ruby-visible exception classes used by the extension: the five
`Taskchampion` error subclasses defined in `error.rs`, plus Ruby's built-in
`ArgumentError` and `RuntimeError` (reached through
`magnus::exception::arg_error` / `runtime_error`), plus the generic
`Taskchampion::Error` fallback. -/
inductive ErrKind where
  | threadError
  | storageError
  | validationError
  | configError
  | syncError
  | argError
  | runtimeError
  | generic
deriving DecidableEq, Repr

/-- A raised Ruby error: exception class plus message, as built by
`magnus::Error::new(class, message)`. -/
structure RbError where
  kind : ErrKind
  msg : String
deriving DecidableEq, Repr

/-- Substring test on character lists: `needle` occurs contiguously in
`hay`.  Embeds Rust's `str::contains` (case-sensitive substring search). -/
def listContainsSub (needle : List Char) : List Char → Bool
  | [] => needle.isEmpty
  | c :: rest => needle.isPrefixOf (c :: rest) || listContainsSub needle rest

/-- `strContains msg kw` embeds `msg.contains(kw)` from Rust. -/
def strContains (msg kw : String) : Bool :=
  listContainsSub kw.data msg.data

/-- Embeds `map_taskchampion_error` (error.rs lines 54-78): classify an
engine failure message by case-sensitive substring search, testing the
Storage, Sync, Config and Validation keyword groups in that order and
falling back to the generic `Taskchampion::Error`. -/
def map_taskchampion_error (error_msg : String) : RbError :=
  if strContains error_msg "No such file" || strContains error_msg "Permission denied" ||
     strContains error_msg "storage" || strContains error_msg "database" then
    ⟨.storageError, "Storage error: " ++ error_msg⟩
  else if strContains error_msg "sync" || strContains error_msg "server" ||
          strContains error_msg "network" || strContains error_msg "remote" then
    ⟨.syncError, "Synchronization error: " ++ error_msg⟩
  else if strContains error_msg "config" || strContains error_msg "invalid config" then
    ⟨.configError, "Configuration error: " ++ error_msg⟩
  else if strContains error_msg "invalid" || strContains error_msg "parse" ||
          strContains error_msg "format" || strContains error_msg "validation" then
    ⟨.validationError, "Validation error: " ++ error_msg⟩
  else
    ⟨.generic, "TaskChampion error: " ++ error_msg⟩

/-- Embeds `util.rs` `into_error`: engine failures reach Ruby through the
classifier. -/
def into_error (error_msg : String) : RbError :=
  map_taskchampion_error error_msg

/-- Embeds `ThreadBound<T>` (thread_check.rs): the wrapped value together
with the id of the thread captured at construction.  Thread ids are
modelled as naturals. -/
structure ThreadBound (α : Type) where
  inner : α
  threadId : Nat
deriving DecidableEq, Repr

namespace ThreadBound

/-- Embeds `ThreadBound::new`, capturing the current thread's id. -/
def new (a : α) (currentTid : Nat) : ThreadBound α :=
  ⟨a, currentTid⟩

/-- Embeds `ThreadBound::check_thread`: fails with a `ThreadError` when the
calling thread differs from the captured one. -/
def check_thread (tb : ThreadBound α) (tid : Nat) : Except RbError Unit :=
  if tb.threadId ≠ tid then
    .error ⟨.threadError, "Object cannot be accessed from a different thread"⟩
  else
    .ok ()

/-- Embeds `ThreadBound::get`.  Rust's `get` takes `&self` and returns a
`Ref`; here the (unchanged) guard is returned alongside the result so that
the absence of side effects is part of the statement. -/
def get (tb : ThreadBound α) (tid : Nat) : Except RbError α × ThreadBound α :=
  match tb.check_thread tid with
  | .error e => (.error e, tb)
  | .ok _ => (.ok tb.inner, tb)

/-- Embeds `ThreadBound::get_mut` (same thread check, write access). -/
def get_mut (tb : ThreadBound α) (tid : Nat) : Except RbError α × ThreadBound α :=
  match tb.check_thread tid with
  | .error e => (.error e, tb)
  | .ok _ => (.ok tb.inner, tb)

/-- Embeds `ThreadBound::into_inner`, which re-implements the thread test
with its own message rather than calling `check_thread`. -/
def into_inner (tb : ThreadBound α) (tid : Nat) : Except RbError α :=
  if tb.threadId ≠ tid then
    .error ⟨.threadError, "Object cannot be extracted from a different thread"⟩
  else
    .ok tb.inner

/-- Runs a sequence of `get` attempts from the listed threads, threading
the guard state through. -/
def runGets (tb : ThreadBound α) (tids : List Nat) : ThreadBound α :=
  tids.foldl (fun g t => (g.get t).2) tb

end ThreadBound

/-- One lowercase hexadecimal digit, as accepted by the canonical
hyphenated UUID form. -/
def isHexLower (c : Char) : Bool :=
  (('0' ≤ c && c ≤ '9') || ('a' ≤ c && c ≤ 'f'))

/-- Consume exactly `n` lowercase hex digits from the front of `cs`. -/
def hexRun : Nat → List Char → Option (List Char)
  | 0, cs => some cs
  | _ + 1, [] => none
  | n + 1, c :: cs => if isHexLower c then hexRun n cs else none

/-- Consume one `-` separator. -/
def expectDash : List Char → Option (List Char)
  | '-' :: cs => some cs
  | _ => none

/-- Whether `s` is a UUID in the canonical hyphenated lowercase form
`xxxxxxxx-xxxx-xxxx-xxxx-xxxxxxxxxxxx`.  Models the external
`uuid::Uuid::parse_str` / `Uuid::to_string` pair (the `uuid` crate is an
external collaborator) restricted to the canonical textual form, in which
parsing and printing are mutually inverse. -/
def isCanonicalUuid (s : String) : Bool :=
  match (((((((hexRun 8 s.data).bind expectDash).bind (hexRun 4)).bind
      expectDash).bind (hexRun 4)).bind expectDash).bind (hexRun 4)).bind
      expectDash |>.bind (hexRun 12) with
  | some [] => true
  | _ => false

/-- Engine-side UUIDs, kept in their canonical string form. -/
abbrev Uuid := String

/-- The `ValidationError` raised by `uuid2tc` for a string that does not
parse as a UUID; its message quotes the offending string. -/
def invalidUuidErr (s : String) : RbError :=
  ⟨.validationError,
    "Invalid UUID format: '" ++ s ++
      "'. Expected format: xxxxxxxx-xxxx-xxxx-xxxx-xxxxxxxxxxxx"⟩

/-- Embeds `uuid2tc` (util.rs lines 8-15): parse a Ruby string as a UUID,
failing with a `ValidationError` that names the offending string. -/
def uuid2tc (s : String) : Except RbError Uuid :=
  if isCanonicalUuid s then
    .ok s
  else
    .error (invalidUuidErr s)

/-- Ruby values crossing the boundary, restricted to the shapes the
embedded methods produce or consume: `nil`, strings, datetimes (as Unix
seconds) and non-negative integers. -/
inductive RValue where
  | nil
  | str (s : String)
  | time (t : Int)
  | int (n : Nat)
deriving DecidableEq, Repr

/-- Embeds `ruby_to_datetime` (util.rs) on the value shapes of `RValue`: a
datetime converts to itself; anything else fails with a
`ValidationError`.  (String parsing of the various datetime formats is
marshalling glue outside this model; a modelled datetime is one the
conversion accepts.) -/
def ruby_to_datetime : RValue → Except RbError Int
  | .time t => .ok t
  | .nil => .error ⟨.validationError,
      "Cannot convert value to datetime. Expected Time, DateTime, or String, got: NilClass"⟩
  | .str s => .error ⟨.validationError,
      "Invalid datetime format: '" ++ s ++
        "'. Expected ISO 8601 format (e.g., '2023-01-01T12:00:00Z') or '%Y-%m-%d %H:%M:%S %z'"⟩
  | .int _ => .error ⟨.validationError,
      "Cannot convert value to datetime. Expected Time, DateTime, or String, got: Integer"⟩

/-- Embeds `datetime_to_ruby`: a datetime crosses back as a Ruby DateTime
carrying the same instant. -/
def datetime_to_ruby (t : Int) : RValue :=
  .time t

/-- Embeds `ruby_to_option` specialised as in `set_timestamp`/`set_due`:
`nil` becomes `none`, any other value goes through the converter. -/
def ruby_to_option (v : RValue) (conv : RValue → Except RbError α) :
    Except RbError (Option α) :=
  match v with
  | .nil => .ok none
  | v => (conv v).map some

/-- Embeds the engine's `taskchampion::Operation` enum, as constructed and
consumed by operation.rs: `Create`, `Delete` (with the deleted task's
property snapshot), `Update` (single property, before/after values), and
the payload-free `UndoPoint`. -/
inductive TCOperation where
  | create (uuid : Uuid)
  | delete (uuid : Uuid) (old_task : List (String × String))
  | update (uuid : Uuid) (property : String) (timestamp : Int)
      (old_value : Option String) (value : Option String)
  | undoPoint
deriving DecidableEq, Repr

namespace Operation

/-- Embeds `Operation::create` (operation.rs lines 15-19). -/
def create (uuid : String) : Except RbError TCOperation := do
  let u ← uuid2tc uuid
  .ok (.create u)

/-- Embeds `Operation::delete` (operation.rs lines 21-27); the Ruby hash
arrives already converted to key/value pairs. -/
def delete (uuid : String) (old_task : List (String × String)) :
    Except RbError TCOperation := do
  let u ← uuid2tc uuid
  .ok (.delete u old_task)

/-- Embeds `Operation::update` (operation.rs lines 29-44): the timestamp
is converted first, then the uuid is parsed. -/
def update (uuid : String) (property : String) (timestamp : RValue)
    (old_value : Option String) (value : Option String) :
    Except RbError TCOperation := do
  let ts ← ruby_to_datetime timestamp
  let u ← uuid2tc uuid
  .ok (.update u property ts old_value value)

/-- Embeds `Operation::undo_point`. -/
def undo_point : TCOperation :=
  .undoPoint

/-- Embeds `Operation::create_op` (`create?`). -/
def create_op : TCOperation → Bool
  | .create _ => true
  | _ => false

/-- Embeds `Operation::delete_op` (`delete?`). -/
def delete_op : TCOperation → Bool
  | .delete _ _ => true
  | _ => false

/-- Embeds `Operation::update_op` (`update?`). -/
def update_op : TCOperation → Bool
  | .update _ _ _ _ _ => true
  | _ => false

/-- Embeds `Operation::undo_point_op` (`undo_point?`). -/
def undo_point_op : TCOperation → Bool
  | .undoPoint => true
  | _ => false

/-- Embeds `Operation::uuid` (operation.rs lines 77-87): succeeds on every
variant except `UndoPoint`, which raises `ArgumentError`. -/
def uuid : TCOperation → Except RbError String
  | .create u => .ok u
  | .delete u _ => .ok u
  | .update u _ _ _ _ => .ok u
  | .undoPoint => .error ⟨.argError, "UndoPoint operations do not have a uuid"⟩

/-- Embeds `Operation::old_task` (operation.rs lines 89-103). -/
def old_task : TCOperation → Except RbError (List (String × String))
  | .delete _ ot => .ok ot
  | _ => .error ⟨.argError, "Only Delete operations have old_task"⟩

/-- Embeds `Operation::property` (operation.rs lines 105-113). -/
def property : TCOperation → Except RbError String
  | .update _ p _ _ _ => .ok p
  | _ => .error ⟨.argError, "Only Update operations have property"⟩

/-- Embeds `Operation::timestamp` (operation.rs lines 115-123). -/
def timestamp : TCOperation → Except RbError RValue
  | .update _ _ ts _ _ => .ok (datetime_to_ruby ts)
  | _ => .error ⟨.argError, "Only Update operations have timestamp"⟩

/-- Embeds `Operation::old_value` (operation.rs lines 125-136); `None`
crosses to Ruby as `nil`. -/
def old_value : TCOperation → Except RbError RValue
  | .update _ _ _ ov _ =>
    match ov with
    | some val => .ok (.str val)
    | none => .ok .nil
  | _ => .error ⟨.argError, "Only Update operations have old_value"⟩

/-- Embeds `Operation::value` (operation.rs lines 138-149). -/
def value : TCOperation → Except RbError RValue
  | .update _ _ _ _ v =>
    match v with
    | some val => .ok (.str val)
    | none => .ok .nil
  | _ => .error ⟨.argError, "Only Update operations have value"⟩

end Operation

/-- The engine's `taskchampion::Operations` collection: an ordered list of
records.  The Ruby-facing `Operations` object wraps it in a
`ThreadBound` (operations.rs line 11); the inner `RefCell` layer is
subsumed by explicit state passing. -/
abbrev Operations := ThreadBound (List TCOperation)

namespace Operations

/-- Embeds `Operations::new`: an empty log confined to the creating
thread. -/
def new (tid : Nat) : Operations :=
  ThreadBound.new [] tid

/-- The pure body of `Operations::get` (operations.rs lines 36-59):
resolve a possibly negative index against the current length, returning
`none` (Ruby `nil`) out of range instead of raising. -/
def getIdx (ops : List TCOperation) (index : Int) : Option TCOperation :=
  let len : Int := ops.length
  let actual_index := if index < 0 then len + index else index
  if actual_index < 0 ∨ len ≤ actual_index then
    none
  else
    ops.get? actual_index.toNat

/-- Embeds `Operations::get`, thread check included. -/
def get (tb : Operations) (tid : Nat) (index : Int) :
    Except RbError (Option TCOperation) := do
  let ops ← (ThreadBound.get tb tid).1
  .ok (getIdx ops index)

/-- Embeds `Operations::push`: appends at the end.  Returns the updated
log state. -/
def push (tb : Operations) (tid : Nat) (op : TCOperation) :
    Except RbError Operations := do
  let ops ← (ThreadBound.get tb tid).1
  .ok ⟨ops ++ [op], tb.threadId⟩

/-- Embeds `Operations::len`. -/
def len (tb : Operations) (tid : Nat) : Except RbError Nat := do
  let ops ← (ThreadBound.get tb tid).1
  .ok ops.length

/-- Embeds `Operations::clear`: empties the log. -/
def clear (tb : Operations) (tid : Nat) : Except RbError Operations := do
  let _ ← (ThreadBound.get tb tid).1
  .ok ⟨[], tb.threadId⟩

/-- Embeds `Operations::clone_inner` (operations.rs lines 113-117): a
read-only clone of the records handed to the engine on commit. -/
def clone_inner (tb : Operations) (tid : Nat) :
    Except RbError (List TCOperation) := do
  let ops ← (ThreadBound.get tb tid).1
  .ok ops

/-- Embeds `Operations::extend_from_tc` (operations.rs lines 132-139):
appends engine-produced records; the thread check happens before any
mutation. -/
def extend_from_tc (tb : Operations) (tid : Nat)
    (tc_ops : List TCOperation) : Except RbError Operations := do
  let ops ← (ThreadBound.get tb tid).1
  .ok ⟨ops ++ tc_ops, tb.threadId⟩

end Operations

/-- The task snapshot held by a `Task` handle, restricted to the fields
the embedded mutators touch.  The engine-side mutation semantics live in
the external crate and are abstracted below. -/
structure TCTask where
  uuid : Uuid
  description : String
  priority : String
  values : List (String × Option String)
deriving DecidableEq, Repr

/-- The mutable state a Task mutator sees: the handle's snapshot plus the
supplied operation log's records (both behind same-thread access here;
confinement itself is the `ThreadBound` layer). -/
abbrev TaskState := TCTask × List TCOperation

/-- An abstracted engine mutator (`taskchampion::Task::set_*`): takes the
snapshot and the log, returns their updated versions or an engine
failure message. -/
abbrev TCMutator := TCTask → List TCOperation → Except String TaskState

/-- Embeds `with_inner_mut`'s error mapping (operations.rs lines
119-129): an engine failure surfaces as a Ruby `RuntimeError`. -/
def withInnerMutErr (m : String) : RbError :=
  ⟨.runtimeError, m⟩

/-- Embeds the Rust guard `s.trim().is_empty()` used by the mutator
validations: true exactly when every character of `s` is whitespace
(equivalently, trimming leaves the empty string). -/
def trimIsEmpty (s : String) : Bool :=
  s.data.all (fun c => c.isWhitespace)

namespace Task

/-- Embeds `Task::set_description` (task.rs lines 164-177): reject empty
or whitespace-only descriptions with a `ValidationError` before touching
the snapshot or the log; otherwise run the engine mutator.  The engine
call `tcSet` abstracts `taskchampion::Task::set_description`. -/
def set_description (tcSet : String → TCMutator) (st : TaskState)
    (description : String) : Except RbError Unit × TaskState :=
  if description |> trimIsEmpty then
    (.error ⟨.validationError, "Description cannot be empty or whitespace-only"⟩, st)
  else
    match tcSet description st.1 st.2 with
    | .ok st' => (.ok (), st')
    | .error m => (.error (withInnerMutErr m), st)

/-- Embeds `Task::set_priority` (task.rs lines 200-213). -/
def set_priority (tcSet : String → TCMutator) (st : TaskState)
    (priority : String) : Except RbError Unit × TaskState :=
  if priority |> trimIsEmpty then
    (.error ⟨.validationError, "Priority cannot be empty or whitespace-only"⟩, st)
  else
    match tcSet priority st.1 st.2 with
    | .ok st' => (.ok (), st')
    | .error m => (.error (withInnerMutErr m), st)

/-- Embeds `Task::set_value` (task.rs lines 276-294): reject an empty
property name first; a `nil` value maps to `None` (property removal). -/
def set_value (tcSet : String → Option String → TCMutator) (st : TaskState)
    (property : String) (value : RValue) : Except RbError Unit × TaskState :=
  if property |> trimIsEmpty then
    (.error ⟨.validationError, "Property name cannot be empty or whitespace-only"⟩, st)
  else
    let value_str := match value with
      | .nil => none
      | .str s => some s
      | .time t => some (toString t)
      | .int n => some (toString n)
    match tcSet property value_str st.1 st.2 with
    | .ok st' => (.ok (), st')
    | .error m => (.error (withInnerMutErr m), st)

/-- Embeds `Task::set_timestamp` (task.rs lines 296-314): reject an empty
property name, then convert the timestamp and store it via `set_value`
as a Unix-seconds string. -/
def set_timestamp (tcSet : String → Option String → TCMutator) (st : TaskState)
    (property : String) (timestamp : RValue) : Except RbError Unit × TaskState :=
  if property |> trimIsEmpty then
    (.error ⟨.validationError, "Property name cannot be empty or whitespace-only"⟩, st)
  else
    match ruby_to_option timestamp ruby_to_datetime with
    | .error e => (.error e, st)
    | .ok ts =>
      let timestamp_str := ts.map toString
      match tcSet property timestamp_str st.1 st.2 with
      | .ok st' => (.ok (), st')
      | .error m => (.error (withInnerMutErr m), st)

/-- Embeds `Task::set_uda` (task.rs lines 343-362): namespace and key must
both be non-empty after trimming. -/
def set_uda (tcSet : String → String → String → TCMutator) (st : TaskState)
    (namespc : String) (key : String) (value : String) :
    Except RbError Unit × TaskState :=
  if namespc |> trimIsEmpty then
    (.error ⟨.validationError, "UDA namespace cannot be empty or whitespace-only"⟩, st)
  else if key |> trimIsEmpty then
    (.error ⟨.validationError, "UDA key cannot be empty or whitespace-only"⟩, st)
  else
    match tcSet namespc key value st.1 st.2 with
    | .ok st' => (.ok (), st')
    | .error m => (.error (withInnerMutErr m), st)

/-- Embeds `Task::delete_uda` (task.rs lines 364-383). -/
def delete_uda (tcRemove : String → String → TCMutator) (st : TaskState)
    (namespc : String) (key : String) : Except RbError Unit × TaskState :=
  if namespc |> trimIsEmpty then
    (.error ⟨.validationError, "UDA namespace cannot be empty or whitespace-only"⟩, st)
  else if key |> trimIsEmpty then
    (.error ⟨.validationError, "UDA key cannot be empty or whitespace-only"⟩, st)
  else
    match tcRemove namespc key st.1 st.2 with
    | .ok st' => (.ok (), st')
    | .error m => (.error (withInnerMutErr m), st)

/-- Embeds `Task::add_annotation` (task.rs lines 231-256): reject an empty
description, then build the annotation at the (counter-offset) current
time and run the engine mutator.  The clock and counter are passed in
explicitly. -/
def add_annotation (tcAdd : Int → String → TCMutator) (now : Int)
    (counter : Nat) (st : TaskState) (description : String) :
    Except RbError Unit × TaskState :=
  if description |> trimIsEmpty then
    (.error ⟨.validationError, "Annotation description cannot be empty or whitespace-only"⟩, st)
  else
    match tcAdd (now + counter) description st.1 st.2 with
    | .ok st' => (.ok (), st')
    | .error m => (.error (withInnerMutErr m), st)

end Task

namespace Replica

/-- Embeds `Replica::commit_operations` (replica.rs lines 68-78): take
exclusive access to the confined replica, clone the log's records, hand
the clone to the engine.  `engineCommit` abstracts
`taskchampion::Replica::commit_operations` over an engine state `ε`; the
Ruby-side log is returned so its preservation can be stated. -/
def commit_operations (engineCommit : List TCOperation → ε → Except String ε)
    (replicaTb : ThreadBound ε) (opsTb : Operations) (tid : Nat) :
    Except RbError (ThreadBound ε) × Operations :=
  match (ThreadBound.get_mut replicaTb tid).1 with
  | .error e => (.error e, opsTb)
  | .ok engine =>
    match Operations.clone_inner opsTb tid with
    | .error e => (.error e, opsTb)
    | .ok tc_operations =>
      match engineCommit tc_operations engine with
      | .error m => (.error (into_error m), opsTb)
      | .ok engine' => (.ok ⟨engine', replicaTb.threadId⟩, opsTb)

/-- Embeds `Replica::create_task` (replica.rs lines 49-66).
`engineCreate` abstracts `taskchampion::Replica::create_task`, returning
the new task, the records it produced, and the updated engine state.  The
result of `extend_from_tc` is discarded in the source (line 60 drops the
`Result`), so a failed append leaves the log as it was and the call still
succeeds. -/
def create_task (engineCreate : Uuid → ε → Except String (TCTask × List TCOperation × ε))
    (replicaTb : ThreadBound ε) (opsTb : Operations) (tid : Nat)
    (uuid : String) : Except RbError TCTask × ThreadBound ε × Operations :=
  match (ThreadBound.get_mut replicaTb tid).1 with
  | .error e => (.error e, replicaTb, opsTb)
  | .ok engine =>
    match uuid2tc uuid with
    | .error e => (.error e, replicaTb, opsTb)
    | .ok tc_uuid =>
      match engineCreate tc_uuid engine with
      | .error m => (.error (into_error m), replicaTb, opsTb)
      | .ok (tc_task, tc_ops, engine') =>
        let opsTb' := match Operations.extend_from_tc opsTb tid tc_ops with
          | .ok tb => tb
          | .error _ => opsTb
        (.ok tc_task, ⟨engine', replicaTb.threadId⟩, opsTb')

/-- Embeds `Replica::task` (replica.rs lines 108-119): exclusive access,
uuid validation, then the engine read.  `engineGet` abstracts
`taskchampion::Replica::get_task`. -/
def task (engineGet : Uuid → ε → Except String (Option TCTask))
    (replicaTb : ThreadBound ε) (tid : Nat) (uuid : String) :
    Except RbError (Option TCTask) × ThreadBound ε :=
  match (ThreadBound.get_mut replicaTb tid).1 with
  | .error e => (.error e, replicaTb)
  | .ok engine =>
    match uuid2tc uuid with
    | .error e => (.error e, replicaTb)
    | .ok tc_uuid =>
      match engineGet tc_uuid engine with
      | .error m => (.error (into_error m), replicaTb)
      | .ok t => (.ok t, replicaTb)

/-- Embeds `Replica::task_data` (replica.rs lines 95-106); the returned
payload is opaque at this layer. -/
def task_data (engineGet : Uuid → ε → Except String (Option τ))
    (replicaTb : ThreadBound ε) (tid : Nat) (uuid : String) :
    Except RbError (Option τ) × ThreadBound ε :=
  match (ThreadBound.get_mut replicaTb tid).1 with
  | .error e => (.error e, replicaTb)
  | .ok engine =>
    match uuid2tc uuid with
    | .error e => (.error e, replicaTb)
    | .ok tc_uuid =>
      match engineGet tc_uuid engine with
      | .error m => (.error (into_error m), replicaTb)
      | .ok t => (.ok t, replicaTb)

end Replica

/-- Embeds `create_task_data` (task_data.rs lines 89-102): validate the
uuid, run the (infallible) engine constructor, then append its records to
the supplied log — here the `Result` of `extend_from_tc` is propagated
with `?`, unlike in `Replica::create_task`. -/
def create_task_data (engineCreate : Uuid → TCTask × List TCOperation)
    (opsTb : Operations) (tid : Nat) (uuid : String) :
    Except RbError (TCTask × Operations) := do
  let tc_uuid ← uuid2tc uuid
  let created := engineCreate tc_uuid
  let opsTb' ← Operations.extend_from_tc opsTb tid created.2
  .ok (created.1, opsTb')

/-- Modelled from the spec: the engine's `taskchampion::WorkingSet` (not
under src/; only its wrapper is) — "a read-only bidirectional mapping
between small dense integer indices and task identifiers".  Entries pair
an index with a task uuid; bidirectionality holds when neither column
repeats. -/
structure TCWorkingSet where
  entries : List (Nat × Uuid)
deriving DecidableEq, Repr

namespace TCWorkingSet

/-- Modelled from the spec: `by_index` looks an index up in the mapping,
absent for unused indices. -/
def by_index (ws : TCWorkingSet) (index : Nat) : Option Uuid :=
  (ws.entries.find? (fun p => p.1 == index)).map (·.2)

/-- Modelled from the spec: `by_uuid` looks a task identifier up in the
mapping, absent for unknown identifiers. -/
def by_uuid (ws : TCWorkingSet) (uuid : Uuid) : Option Nat :=
  (ws.entries.find? (fun p => p.2 == uuid)).map (·.1)

end TCWorkingSet

namespace WorkingSet

/-- Embeds `WorkingSet::by_index` (working_set.rs lines 22-31): a hit
crosses as the uuid string, a miss as `nil`. -/
def by_index (tb : ThreadBound TCWorkingSet) (tid : Nat) (index : Nat) :
    Except RbError RValue := do
  let ws ← (ThreadBound.get tb tid).1
  match ws.by_index index with
  | some uuid => .ok (.str uuid)
  | none => .ok .nil

/-- Embeds `WorkingSet::by_uuid` (working_set.rs lines 33-41): the string
is parsed as a uuid first (a malformed string raises), then looked up,
with a miss crossing as `nil`. -/
def by_uuid (tb : ThreadBound TCWorkingSet) (tid : Nat) (uuid : String) :
    Except RbError RValue := do
  let ws ← (ThreadBound.get tb tid).1
  let tc_uuid ← uuid2tc uuid
  match ws.by_uuid tc_uuid with
  | some index => .ok (.int index)
  | none => .ok .nil

end WorkingSet

/-- Modelled from the spec: the engine's `taskchampion::DependencyMap`
(not under src/) — "a read-only mapping from task identifier to its
direct dependencies and dependents", here as an edge list
`(task, dependency)`. -/
structure TCDependencyMap where
  edges : List (Uuid × Uuid)
deriving DecidableEq, Repr

namespace TCDependencyMap

/-- Modelled from the spec: the direct dependencies of a task. -/
def dependencies (dm : TCDependencyMap) (uuid : Uuid) : List Uuid :=
  (dm.edges.filter (fun p => p.1 == uuid)).map (·.2)

/-- Modelled from the spec: the direct dependents of a task. -/
def dependents (dm : TCDependencyMap) (uuid : Uuid) : List Uuid :=
  (dm.edges.filter (fun p => p.2 == uuid)).map (·.1)

end TCDependencyMap

namespace DependencyMap

/-- Embeds `DependencyMap::dependencies` (dependency_map.rs lines 18-28):
thread check, uuid validation, then the engine lookup. -/
def dependencies (tb : ThreadBound TCDependencyMap) (tid : Nat)
    (uuid : String) : Except RbError (List Uuid) := do
  let dm ← (ThreadBound.get tb tid).1
  let tc_uuid ← uuid2tc uuid
  .ok (dm.dependencies tc_uuid)

/-- Embeds `DependencyMap::dependents` (dependency_map.rs lines 30-40). -/
def dependents (tb : ThreadBound TCDependencyMap) (tid : Nat)
    (uuid : String) : Except RbError (List Uuid) := do
  let dm ← (ThreadBound.get tb tid).1
  let tc_uuid ← uuid2tc uuid
  .ok (dm.dependents tc_uuid)

end DependencyMap

/-! ## Theorems -/

/-- `get` never changes the guard. -/
theorem ThreadBound.get_snd (tb : ThreadBound α) (tid : Nat) :
    (ThreadBound.get tb tid).2 = tb := by
  unfold ThreadBound.get
  cases tb.check_thread tid <;> rfl

/-- `get_mut` never changes the guard. -/
theorem ThreadBound.get_mut_snd (tb : ThreadBound α) (tid : Nat) :
    (ThreadBound.get_mut tb tid).2 = tb := by
  unfold ThreadBound.get_mut
  cases tb.check_thread tid <;> rfl

/-- Any sequence of `get` attempts, from any threads, leaves the guard
unchanged. -/
theorem ThreadBound.runGets_eq (tb : ThreadBound α) (l : List Nat) :
    ThreadBound.runGets tb l = tb := by
  induction l generalizing tb with
  | nil => rfl
  | cons t ts ih =>
    show ThreadBound.runGets (ThreadBound.get tb t).2 ts = tb
    rw [ThreadBound.get_snd]
    exact ih tb

/-- On the capturing thread, `check_thread` succeeds. -/
theorem ThreadBound.check_thread_self (tb : ThreadBound α) :
    tb.check_thread tb.threadId = .ok () := by
  simp [ThreadBound.check_thread]

/-- C1: for every thread-confined object (`ThreadBound` guard, as used to
wrap `Replica`, `Operations`, `Task`, `TaskData`, `WorkingSet` and
`DependencyMap`), `get`, `get_mut` and `into_inner` succeed exactly when
the calling thread is the capturing thread and otherwise fail with a
`ThreadError`; a failed call leaves the guard (hence the wrapped value)
unchanged; and after any number of failed foreign-thread `get` attempts,
an access from the capturing thread still succeeds. -/
theorem c1_thread_confinement {α : Type} (tb : ThreadBound α) (tid : Nat)
    (foreign : List Nat) (hf : ∀ t ∈ foreign, t ≠ tb.threadId) :
    ((ThreadBound.get tb tid).1 = .ok tb.inner ↔ tid = tb.threadId) ∧
    ((ThreadBound.get_mut tb tid).1 = .ok tb.inner ↔ tid = tb.threadId) ∧
    (ThreadBound.into_inner tb tid = .ok tb.inner ↔ tid = tb.threadId) ∧
    (tid ≠ tb.threadId →
      (ThreadBound.get tb tid).1 =
        .error ⟨.threadError, "Object cannot be accessed from a different thread"⟩ ∧
      (ThreadBound.get_mut tb tid).1 =
        .error ⟨.threadError, "Object cannot be accessed from a different thread"⟩ ∧
      ThreadBound.into_inner tb tid =
        .error ⟨.threadError, "Object cannot be extracted from a different thread"⟩) ∧
    (ThreadBound.get tb tid).2 = tb ∧
    (ThreadBound.get_mut tb tid).2 = tb ∧
    (∀ t ∈ foreign, (ThreadBound.get tb t).1 =
      .error ⟨.threadError, "Object cannot be accessed from a different thread"⟩) ∧
    ThreadBound.runGets tb foreign = tb ∧
    (ThreadBound.get (ThreadBound.runGets tb foreign) tb.threadId).1 = .ok tb.inner := by
  have hget : ∀ s : Nat, s ≠ tb.threadId →
      (ThreadBound.get tb s).1 =
        .error ⟨.threadError, "Object cannot be accessed from a different thread"⟩ := by
    intro s hs
    have hs' : tb.threadId ≠ s := Ne.symm hs
    simp [ThreadBound.get, ThreadBound.check_thread, hs']
  refine ⟨?_, ?_, ?_, ?_, ThreadBound.get_snd tb tid, ThreadBound.get_mut_snd tb tid,
    ?_, ThreadBound.runGets_eq tb foreign, ?_⟩
  · constructor
    · intro h
      by_contra hne
      rw [hget tid hne] at h
      exact Except.noConfusion h
    · intro h
      subst h
      simp [ThreadBound.get, ThreadBound.check_thread_self]
  · constructor
    · intro h
      by_contra hne
      have hne' : tb.threadId ≠ tid := fun hh => hne hh.symm
      have : (ThreadBound.get_mut tb tid).1 =
          .error ⟨.threadError, "Object cannot be accessed from a different thread"⟩ := by
        simp [ThreadBound.get_mut, ThreadBound.check_thread, hne']
      rw [this] at h
      exact Except.noConfusion h
    · intro h
      subst h
      simp [ThreadBound.get_mut, ThreadBound.check_thread_self]
  · constructor
    · intro h
      by_contra hne
      have hne' : tb.threadId ≠ tid := fun hh => hne hh.symm
      have : ThreadBound.into_inner tb tid =
          .error ⟨.threadError, "Object cannot be extracted from a different thread"⟩ := by
        simp [ThreadBound.into_inner, hne']
      rw [this] at h
      exact Except.noConfusion h
    · intro h
      subst h
      simp [ThreadBound.into_inner]
  · intro hne
    have hne' : tb.threadId ≠ tid := fun hh => hne hh.symm
    refine ⟨hget tid hne, ?_, ?_⟩
    · simp [ThreadBound.get_mut, ThreadBound.check_thread, hne']
    · simp [ThreadBound.into_inner, hne']
  · intro t ht
    exact hget t (hf t ht)
  · rw [ThreadBound.runGets_eq]
    simp [ThreadBound.get, ThreadBound.check_thread_self]

/-- Witness for C1: a guard over an operation list captured on thread 5,
attacked from threads 7 and 8, still serves thread 5. -/
theorem c1_thread_confinement_witness :
    (ThreadBound.get (⟨([TCOperation.undoPoint] : List TCOperation), 5⟩ : ThreadBound (List TCOperation)) 7).1 =
      .error ⟨.threadError, "Object cannot be accessed from a different thread"⟩ ∧
    (ThreadBound.get (ThreadBound.runGets
        (⟨([TCOperation.undoPoint] : List TCOperation), 5⟩ : ThreadBound (List TCOperation)) [7, 8]) 5).1 =
      .ok [TCOperation.undoPoint] := by
  have h := c1_thread_confinement
    (⟨([TCOperation.undoPoint] : List TCOperation), 5⟩ : ThreadBound (List TCOperation))
    7 [7, 8] (by decide)
  exact ⟨(h.2.2.2.1 (by decide)).1, h.2.2.2.2.2.2.2.2⟩

/-- C2: every Task mutator that validates a string input (`set_description`,
`set_priority`, `set_value`, `set_timestamp`, `set_uda`, `delete_uda`,
`add_annotation`) rejects the empty string with a `ValidationError` before
any mutation, whatever the engine mutator would do: the snapshot and the
supplied operation log come back exactly as they were (so the log's length
and contents, and the task's description, are unchanged). -/
theorem c2_empty_string_mutators_fail_closed
    (tcSetD tcSetP : String → TCMutator)
    (tcSetV tcSetT : String → Option String → TCMutator)
    (tcSetU : String → String → String → TCMutator)
    (tcDelU : String → String → TCMutator)
    (tcAddA : Int → String → TCMutator)
    (now : Int) (counter : Nat) (st : TaskState) (ns key val : String) (v : RValue)
    (hns : trimIsEmpty ns = false) :
    Task.set_description tcSetD st "" =
      (.error ⟨.validationError, "Description cannot be empty or whitespace-only"⟩, st) ∧
    Task.set_priority tcSetP st "" =
      (.error ⟨.validationError, "Priority cannot be empty or whitespace-only"⟩, st) ∧
    Task.set_value tcSetV st "" v =
      (.error ⟨.validationError, "Property name cannot be empty or whitespace-only"⟩, st) ∧
    Task.set_timestamp tcSetT st "" v =
      (.error ⟨.validationError, "Property name cannot be empty or whitespace-only"⟩, st) ∧
    Task.set_uda tcSetU st "" key val =
      (.error ⟨.validationError, "UDA namespace cannot be empty or whitespace-only"⟩, st) ∧
    Task.set_uda tcSetU st ns "" val =
      (.error ⟨.validationError, "UDA key cannot be empty or whitespace-only"⟩, st) ∧
    Task.delete_uda tcDelU st "" key =
      (.error ⟨.validationError, "UDA namespace cannot be empty or whitespace-only"⟩, st) ∧
    Task.delete_uda tcDelU st ns "" =
      (.error ⟨.validationError, "UDA key cannot be empty or whitespace-only"⟩, st) ∧
    Task.add_annotation tcAddA now counter st "" =
      (.error ⟨.validationError, "Annotation description cannot be empty or whitespace-only"⟩, st) := by
  have hemp : trimIsEmpty "" = true := by decide
  refine ⟨rfl, rfl, rfl, rfl, rfl, ?_, rfl, ?_, rfl⟩
  · simp [Task.set_uda, hns, hemp]
  · simp [Task.delete_uda, hns, hemp]

/-- Witness for C2: `set_description("")` and `set_uda("ns", "")` on a
concrete task and a one-record log fail with `ValidationError` and leave
the state untouched. -/
theorem c2_empty_string_mutators_witness :
    Task.set_description (fun d t ops => .ok ({ t with description := d }, ops))
        (⟨"u", "old", "", []⟩, [TCOperation.undoPoint]) "" =
      (.error ⟨.validationError, "Description cannot be empty or whitespace-only"⟩,
        (⟨"u", "old", "", []⟩, [TCOperation.undoPoint])) ∧
    Task.set_uda (fun _ _ _ t ops => .ok (t, ops))
        (⟨"u", "old", "", []⟩, [TCOperation.undoPoint]) "ns" "" "v" =
      (.error ⟨.validationError, "UDA key cannot be empty or whitespace-only"⟩,
        (⟨"u", "old", "", []⟩, [TCOperation.undoPoint])) := by
  have h := c2_empty_string_mutators_fail_closed
    (fun d t ops => .ok ({ t with description := d }, ops))
    (fun p t ops => .ok (t, ops))
    (fun _ _ t ops => .ok (t, ops))
    (fun _ _ t ops => .ok (t, ops))
    (fun _ _ _ t ops => .ok (t, ops))
    (fun _ _ t ops => .ok (t, ops))
    (fun _ _ t ops => .ok (t, ops))
    0 0 (⟨"u", "old", "", []⟩, [TCOperation.undoPoint]) "ns" "k" "v" .nil
    (by decide)
  exact ⟨h.1, h.2.2.2.2.2.1⟩

/-- On the capturing thread, `get` succeeds with the wrapped value. -/
theorem ThreadBound.get_self (tb : ThreadBound α) :
    (ThreadBound.get tb tb.threadId).1 = .ok tb.inner := by
  simp [ThreadBound.get, ThreadBound.check_thread_self]

/-- On the capturing thread, `get_mut` succeeds with the wrapped value. -/
theorem ThreadBound.get_mut_self (tb : ThreadBound α) :
    (ThreadBound.get_mut tb tb.threadId).1 = .ok tb.inner := by
  simp [ThreadBound.get_mut, ThreadBound.check_thread_self]

/-- On the capturing thread, `clone_inner` returns the records. -/
theorem Operations.clone_inner_self (tb : Operations) :
    Operations.clone_inner tb tb.threadId = .ok tb.inner := by
  unfold Operations.clone_inner
  rw [ThreadBound.get_self]
  rfl

/-- On the capturing thread, `push` appends at the end. -/
theorem Operations.push_self (tb : Operations) (op : TCOperation) :
    Operations.push tb tb.threadId op = .ok ⟨tb.inner ++ [op], tb.threadId⟩ := by
  unfold Operations.push
  rw [ThreadBound.get_self]
  rfl

/-- C3: `commit_operations` hands the engine a clone of the log's records
and leaves the Ruby-side log untouched whether the commit succeeds or
fails (thread failure included); afterwards the log can still be read,
pushed to, and committed again, and the engine call received exactly the
log's records. -/
theorem c3_commit_preserves_log {ε : Type}
    (engineCommit : List TCOperation → ε → Except String ε)
    (replicaTb : ThreadBound ε) (opsTb : Operations) (tid : Nat)
    (op : TCOperation) :
    (Replica.commit_operations engineCommit replicaTb opsTb tid).2 = opsTb ∧
    (tid = opsTb.threadId →
      Operations.clone_inner
          (Replica.commit_operations engineCommit replicaTb opsTb tid).2 tid =
        .ok opsTb.inner) ∧
    (tid = opsTb.threadId →
      Operations.push
          (Replica.commit_operations engineCommit replicaTb opsTb tid).2 tid op =
        .ok ⟨opsTb.inner ++ [op], opsTb.threadId⟩) ∧
    (tid = replicaTb.threadId → tid = opsTb.threadId →
      (Replica.commit_operations engineCommit replicaTb opsTb tid).1 =
        match engineCommit opsTb.inner replicaTb.inner with
        | .ok engine' => .ok ⟨engine', replicaTb.threadId⟩
        | .error m => .error (into_error m)) := by
  have hsnd : (Replica.commit_operations engineCommit replicaTb opsTb tid).2 = opsTb := by
    unfold Replica.commit_operations
    split
    · rfl
    · split
      · rfl
      · split <;> rfl
  refine ⟨hsnd, ?_, ?_, ?_⟩
  · intro h
    subst h
    rw [hsnd]
    exact Operations.clone_inner_self opsTb
  · intro h
    subst h
    rw [hsnd]
    exact Operations.push_self opsTb op
  · intro h1 h2
    have hre : (ThreadBound.get_mut replicaTb tid).1 = .ok replicaTb.inner := by
      subst h1
      exact ThreadBound.get_mut_self replicaTb
    have hcl : Operations.clone_inner opsTb tid = .ok opsTb.inner := by
      subst h2
      exact Operations.clone_inner_self opsTb
    unfold Replica.commit_operations
    rw [hre, hcl]
    show (match engineCommit opsTb.inner replicaTb.inner with
      | .error m => ((Except.error (into_error m) : Except RbError (ThreadBound ε)), opsTb)
      | .ok engine' => (Except.ok ⟨engine', replicaTb.threadId⟩, opsTb)).1 =
      match engineCommit opsTb.inner replicaTb.inner with
      | .ok engine' => Except.ok ⟨engine', replicaTb.threadId⟩
      | .error m => Except.error (into_error m)
    cases engineCommit opsTb.inner replicaTb.inner <;> rfl

/-- Witness for C3: committing a one-record log against an engine that
rejects it leaves the log intact and ready for another push. -/
theorem c3_commit_preserves_log_witness :
    (Replica.commit_operations (fun _ _ => .error "storage fault")
        (⟨(0 : Nat), 3⟩ : ThreadBound Nat) ⟨[TCOperation.undoPoint], 3⟩ 3).2 =
      (⟨[TCOperation.undoPoint], 3⟩ : Operations) ∧
    Operations.push
        (Replica.commit_operations (fun _ _ => .error "storage fault")
          (⟨(0 : Nat), 3⟩ : ThreadBound Nat) ⟨[TCOperation.undoPoint], 3⟩ 3).2 3
        TCOperation.undoPoint =
      .ok ⟨[TCOperation.undoPoint, TCOperation.undoPoint], 3⟩ := by
  have h := c3_commit_preserves_log (fun _ _ => .error "storage fault")
    (⟨(0 : Nat), 3⟩ : ThreadBound Nat) ⟨[TCOperation.undoPoint], 3⟩ 3
    TCOperation.undoPoint
  exact ⟨h.1, h.2.2.1 rfl⟩

/-- C4 counterexample: the claim says the variant-specific accessors fail
with a validation error, but `property` on a `Create` record raises
Ruby's `ArgumentError` (`magnus::exception::arg_error`), which is not the
`Taskchampion::ValidationError` class the error taxonomy means by
validation error. -/
theorem c4_accessor_error_counterexample :
    Operation.property (TCOperation.create "a2f6dd4e-9f9e-4824-a2d0-e10d5e25e71b") =
      .error ⟨.argError, "Only Update operations have property"⟩ ∧
    ErrKind.argError ≠ ErrKind.validationError :=
  ⟨rfl, by decide⟩

/-- C4 (amended): each variant-specific accessor (`property`, `timestamp`,
`old_value`, `value` on non-Update records; `old_task` on non-Delete
records) fails with an `ArgumentError` — not a `ValidationError` — whose
message names which accessor belongs to which variant; `uuid` fails only
when the record is an `UndoPoint`; and on the matching variant each
accessor succeeds and returns the stored field. -/
theorem c4_variant_accessors (op : TCOperation) (u : Uuid)
    (ot : List (String × String)) (p : String) (t : Int)
    (ov v : Option String) :
    ((Operation.property op).isOk = Operation.update_op op) ∧
    ((Operation.timestamp op).isOk = Operation.update_op op) ∧
    ((Operation.old_value op).isOk = Operation.update_op op) ∧
    ((Operation.value op).isOk = Operation.update_op op) ∧
    ((Operation.old_task op).isOk = Operation.delete_op op) ∧
    ((Operation.uuid op).isOk = !Operation.undo_point_op op) ∧
    (Operation.update_op op = false →
      Operation.property op = .error ⟨.argError, "Only Update operations have property"⟩ ∧
      Operation.timestamp op = .error ⟨.argError, "Only Update operations have timestamp"⟩ ∧
      Operation.old_value op = .error ⟨.argError, "Only Update operations have old_value"⟩ ∧
      Operation.value op = .error ⟨.argError, "Only Update operations have value"⟩) ∧
    (Operation.delete_op op = false →
      Operation.old_task op = .error ⟨.argError, "Only Delete operations have old_task"⟩) ∧
    (Operation.uuid TCOperation.undoPoint =
      .error ⟨.argError, "UndoPoint operations do not have a uuid"⟩) ∧
    (Operation.uuid (TCOperation.create u) = .ok u ∧
      Operation.uuid (TCOperation.delete u ot) = .ok u ∧
      Operation.uuid (TCOperation.update u p t ov v) = .ok u ∧
      Operation.old_task (TCOperation.delete u ot) = .ok ot ∧
      Operation.property (TCOperation.update u p t ov v) = .ok p ∧
      Operation.timestamp (TCOperation.update u p t ov v) = .ok (.time t) ∧
      Operation.old_value (TCOperation.update u p t none v) = .ok .nil ∧
      Operation.value (TCOperation.update u p t ov none) = .ok .nil ∧
      (∀ s, Operation.old_value (TCOperation.update u p t (some s) v) = .ok (.str s)) ∧
      (∀ s, Operation.value (TCOperation.update u p t ov (some s)) = .ok (.str s))) := by
  refine ⟨?_, ?_, ?_, ?_, ?_, ?_, ?_, ?_, rfl,
    rfl, rfl, rfl, rfl, rfl, rfl, rfl, rfl, fun s => rfl, fun s => rfl⟩
  · cases op with
    | update u' p' t' ov' v' => cases ov' <;> cases v' <;> rfl
    | _ => rfl
  · cases op with
    | update u' p' t' ov' v' => cases ov' <;> cases v' <;> rfl
    | _ => rfl
  · cases op with
    | update u' p' t' ov' v' => cases ov' <;> cases v' <;> rfl
    | _ => rfl
  · cases op with
    | update u' p' t' ov' v' => cases ov' <;> cases v' <;> rfl
    | _ => rfl
  · cases op <;> rfl
  · cases op <;> rfl
  · intro h
    cases op with
    | update u' p' t' ov' v' => simp [Operation.update_op] at h
    | create u' => exact ⟨rfl, rfl, rfl, rfl⟩
    | delete u' ot' => exact ⟨rfl, rfl, rfl, rfl⟩
    | undoPoint => exact ⟨rfl, rfl, rfl, rfl⟩
  · intro h
    cases op with
    | delete u' ot' => simp [Operation.delete_op] at h
    | _ => rfl

/-- Witness for C4 (amended): on a concrete `Create` record, `property`
fails with the `ArgumentError` naming Update, and `uuid` succeeds. -/
theorem c4_variant_accessors_witness :
    Operation.property (TCOperation.create "a2f6dd4e-9f9e-4824-a2d0-e10d5e25e71c") =
      .error ⟨.argError, "Only Update operations have property"⟩ ∧
    Operation.uuid (TCOperation.create "a2f6dd4e-9f9e-4824-a2d0-e10d5e25e71c") =
      .ok "a2f6dd4e-9f9e-4824-a2d0-e10d5e25e71c" := by
  have h := c4_variant_accessors (TCOperation.create "a2f6dd4e-9f9e-4824-a2d0-e10d5e25e71c")
    "a2f6dd4e-9f9e-4824-a2d0-e10d5e25e71c" [] "p" 0 none none
  exact ⟨(h.2.2.2.2.2.2.1 (by decide)).1, h.2.2.2.2.2.2.2.2.2.1⟩

/-- C5: `Operations::get` resolves indices Ruby-style: a non-negative
`i < n` returns the `i`-th record in insertion order; a negative `i` with
`0 ≤ n + i` returns the record at position `n + i`; any out-of-range
index (`i ≥ n` or `n + i < 0`) yields an absent result (`nil`), and on
the confining thread the call itself never fails. -/
theorem c5_negative_indexing (ops : List TCOperation) (i : Int) (tb : Operations) :
    (0 ≤ i → i < (ops.length : Int) →
      Operations.getIdx ops i = ops.get? i.toNat ∧ Operations.getIdx ops i ≠ none) ∧
    (i < 0 → 0 ≤ (ops.length : Int) + i →
      Operations.getIdx ops i = ops.get? ((ops.length : Int) + i).toNat ∧
      Operations.getIdx ops i ≠ none) ∧
    ((ops.length : Int) ≤ i ∨ (ops.length : Int) + i < 0 →
      Operations.getIdx ops i = none) ∧
    Operations.get tb tb.threadId i = .ok (Operations.getIdx tb.inner i) := by
  refine ⟨?_, ?_, ?_, ?_⟩
  · intro h0 h1
    have heq : Operations.getIdx ops i = ops.get? i.toNat := by
      dsimp only [Operations.getIdx]
      rw [if_neg (not_lt.mpr h0),
        if_neg (by omega : ¬ (i < 0 ∨ (ops.length : Int) ≤ i))]
    refine ⟨heq, ?_⟩
    rw [heq, List.get?_eq_getElem?,
      List.getElem?_eq_getElem ((Int.toNat_lt h0).mpr h1)]
    exact Option.some_ne_none _
  · intro h0 h1
    have heq : Operations.getIdx ops i = ops.get? ((ops.length : Int) + i).toNat := by
      dsimp only [Operations.getIdx]
      rw [if_pos h0,
        if_neg (by omega :
          ¬ ((ops.length : Int) + i < 0 ∨ (ops.length : Int) ≤ (ops.length : Int) + i))]
    refine ⟨heq, ?_⟩
    have hlt : ((ops.length : Int) + i).toNat < ops.length :=
      (Int.toNat_lt h1).mpr (by omega)
    rw [heq, List.get?_eq_getElem?, List.getElem?_eq_getElem hlt]
    exact Option.some_ne_none _
  · intro h
    dsimp only [Operations.getIdx]
    by_cases hneg : i < 0
    · rw [if_pos hneg,
        if_pos (by omega :
          ((ops.length : Int) + i < 0 ∨ (ops.length : Int) ≤ (ops.length : Int) + i))]
    · rw [if_neg hneg, if_pos (by omega : (i < 0 ∨ (ops.length : Int) ≤ i))]
  · unfold Operations.get
    rw [ThreadBound.get_self]
    rfl

/-- Witness for C5: on a log of length 3, `get(-1)` equals `get(2)` and
`get(-4)` is out of range, returning `nil`. -/
theorem c5_negative_indexing_witness :
    Operations.getIdx
        [TCOperation.create "a", TCOperation.create "b", TCOperation.create "c"] (-1) =
      Operations.getIdx
        [TCOperation.create "a", TCOperation.create "b", TCOperation.create "c"] 2 ∧
    Operations.getIdx
        [TCOperation.create "a", TCOperation.create "b", TCOperation.create "c"] (-4) =
      none := by
  have h1 := (c5_negative_indexing
    [TCOperation.create "a", TCOperation.create "b", TCOperation.create "c"]
    (-1) (Operations.new 0)).2.1 (by decide) (by decide)
  have h2 := (c5_negative_indexing
    [TCOperation.create "a", TCOperation.create "b", TCOperation.create "c"]
    2 (Operations.new 0)).1 (by decide) (by decide)
  have h3 := (c5_negative_indexing
    [TCOperation.create "a", TCOperation.create "b", TCOperation.create "c"]
    (-4) (Operations.new 0)).2.2.1 (by decide)
  refine ⟨?_, h3⟩
  rw [h1.1, h2.1]
  norm_num

/-- `listContainsSub` decides the sublist-infix relation. -/
theorem listContainsSub_iff (needle hay : List Char) :
    listContainsSub needle hay = true ↔ needle <:+: hay := by
  induction hay with
  | nil => simp [listContainsSub, List.isEmpty_iff, List.infix_nil]
  | cons c rest ih =>
    simp [listContainsSub, List.isPrefixOf_iff_prefix, ih, List.infix_cons_iff]

/-- A message containing "invalid config" contains "config" (substring
containment is transitive). -/
theorem strContains_invalid_config (msg : String)
    (h : strContains msg "invalid config" = true) :
    strContains msg "config" = true := by
  rw [strContains, listContainsSub_iff] at h ⊢
  exact List.IsInfix.trans
    ((listContainsSub_iff _ _).mp (by decide :
      strContains "invalid config" "config" = true)) h

/-- C6 counterexample: the claim says a message containing "permission"
classifies as Storage, but the Storage branch matches the case-sensitive
substring "Permission denied" (besides "storage", "database" and "No such
file"), so the message "permission" — which contains "permission" but no
matched keyword — falls through every branch to Generic. -/
theorem c6_classifier_counterexample :
    strContains "permission" "permission" = true ∧
    (map_taskchampion_error "permission").kind = ErrKind.generic ∧
    ErrKind.generic ≠ ErrKind.storageError :=
  ⟨by decide, by decide, by decide⟩

/-- C6 (amended): the classifier tests keyword groups by case-sensitive
substring search in the fixed order Storage, Sync, Config, Validation and
falls back to Generic; the Storage keywords are "No such file",
"Permission denied", "storage" and "database" (not bare "permission"),
the Sync keywords are "sync", "server", "network" and "remote", the
Config keyword is "config", and the Validation keywords are "invalid",
"parse", "format" and "validation"; consequently a message containing
both "invalid" and "config" (and no earlier keyword) classifies as
Config by branch order. -/
theorem c6_classifier_keyword_order (msg : String) :
    (strContains msg "storage" = true ∨ strContains msg "database" = true ∨
     strContains msg "No such file" = true ∨ strContains msg "Permission denied" = true →
      (map_taskchampion_error msg).kind = .storageError) ∧
    (strContains msg "No such file" = false → strContains msg "Permission denied" = false →
     strContains msg "storage" = false → strContains msg "database" = false →
      (strContains msg "sync" = true ∨ strContains msg "server" = true ∨
       strContains msg "network" = true ∨ strContains msg "remote" = true →
        (map_taskchampion_error msg).kind = .syncError)) ∧
    (strContains msg "No such file" = false → strContains msg "Permission denied" = false →
     strContains msg "storage" = false → strContains msg "database" = false →
     strContains msg "sync" = false → strContains msg "server" = false →
     strContains msg "network" = false → strContains msg "remote" = false →
      (strContains msg "config" = true →
        (map_taskchampion_error msg).kind = .configError)) ∧
    (strContains msg "No such file" = false → strContains msg "Permission denied" = false →
     strContains msg "storage" = false → strContains msg "database" = false →
     strContains msg "sync" = false → strContains msg "server" = false →
     strContains msg "network" = false → strContains msg "remote" = false →
     strContains msg "config" = false →
      (strContains msg "invalid" = true ∨ strContains msg "parse" = true ∨
       strContains msg "format" = true ∨ strContains msg "validation" = true →
        (map_taskchampion_error msg).kind = .validationError)) ∧
    (strContains msg "No such file" = false → strContains msg "Permission denied" = false →
     strContains msg "storage" = false → strContains msg "database" = false →
     strContains msg "sync" = false → strContains msg "server" = false →
     strContains msg "network" = false → strContains msg "remote" = false →
     strContains msg "config" = false →
     strContains msg "invalid" = false → strContains msg "parse" = false →
     strContains msg "format" = false → strContains msg "validation" = false →
      (map_taskchampion_error msg).kind = .generic) ∧
    (strContains msg "No such file" = false → strContains msg "Permission denied" = false →
     strContains msg "storage" = false → strContains msg "database" = false →
     strContains msg "sync" = false → strContains msg "server" = false →
     strContains msg "network" = false → strContains msg "remote" = false →
      (strContains msg "invalid" = true → strContains msg "config" = true →
        (map_taskchampion_error msg).kind = .configError)) := by
  refine ⟨?_, ?_, ?_, ?_, ?_, ?_⟩
  · rintro (h | h | h | h) <;> simp [map_taskchampion_error, h]
  · intro h1 h2 h3 h4 h
    rcases h with h | h | h | h <;>
      simp [map_taskchampion_error, h1, h2, h3, h4, h]
  · intro h1 h2 h3 h4 h5 h6 h7 h8 h
    simp [map_taskchampion_error, h1, h2, h3, h4, h5, h6, h7, h8, h]
  · intro h1 h2 h3 h4 h5 h6 h7 h8 h9 h
    have h9' : strContains msg "invalid config" = false := by
      rcases Bool.eq_false_or_eq_true (strContains msg "invalid config") with hx | hx
      · exact absurd (strContains_invalid_config msg hx) (by simp [h9])
      · exact hx
    rcases h with h | h | h | h <;>
      simp [map_taskchampion_error, h1, h2, h3, h4, h5, h6, h7, h8, h9, h9', h]
  · intro h1 h2 h3 h4 h5 h6 h7 h8 h9 h10 h11 h12 h13
    have h9' : strContains msg "invalid config" = false := by
      rcases Bool.eq_false_or_eq_true (strContains msg "invalid config") with hx | hx
      · exact absurd (strContains_invalid_config msg hx) (by simp [h9])
      · exact hx
    simp [map_taskchampion_error,
      h1, h2, h3, h4, h5, h6, h7, h8, h9, h9', h10, h11, h12, h13]
  · intro h1 h2 h3 h4 h5 h6 h7 h8 hinv hcfg
    simp [map_taskchampion_error, h1, h2, h3, h4, h5, h6, h7, h8, hcfg]

/-- Witness for C6 (amended): the message "invalid config entry" contains
both "invalid" and "config" and classifies as Config by branch order. -/
theorem c6_classifier_keyword_order_witness :
    (map_taskchampion_error "invalid config entry").kind = .configError ∧
    (map_taskchampion_error "unknown failure").kind = .generic := by
  have h := c6_classifier_keyword_order "invalid config entry"
  have h' := c6_classifier_keyword_order "unknown failure"
  exact ⟨h.2.2.2.2.2 (by decide) (by decide) (by decide) (by decide) (by decide)
      (by decide) (by decide) (by decide) (by decide) (by decide),
    h'.2.2.2.2.1 (by decide) (by decide) (by decide) (by decide) (by decide)
      (by decide) (by decide) (by decide) (by decide) (by decide) (by decide)
      (by decide) (by decide)⟩

/-- C7: an `Operation.update` built from a well-formed uuid `U`, property
`P`, valid timestamp `T` and optional old/new values `L`, `H` round-trips
through its getters: `uuid` returns `U`, `property` returns `P`,
`timestamp` returns `T`, `old_value` returns `L` and `value` returns `H`,
with `none` crossing as Ruby `nil` in both directions. -/
theorem c7_update_round_trip (U P : String) (t : Int) (L H : Option String)
    (hU : isCanonicalUuid U = true) :
    ∃ op : TCOperation,
      Operation.update U P (.time t) L H = .ok op ∧
      Operation.uuid op = .ok U ∧
      Operation.property op = .ok P ∧
      Operation.timestamp op = .ok (.time t) ∧
      Operation.old_value op = .ok (match L with | some s => .str s | none => .nil) ∧
      Operation.value op = .ok (match H with | some s => .str s | none => .nil) := by
  refine ⟨.update U P t L H, ?_, rfl, rfl, rfl, ?_, ?_⟩
  · unfold Operation.update
    simp only [ruby_to_datetime, uuid2tc, hU, if_true]
    rfl
  · cases L <;> rfl
  · cases H <;> rfl

/-- Witness for C7: a concrete priority update round-trips, including the
`nil` old-value case. -/
theorem c7_update_round_trip_witness :
    (∃ op : TCOperation,
      Operation.update "11111111-2222-3333-4444-555555555555" "priority"
          (.time 1700000000) (some "L") (some "H") = .ok op ∧
      Operation.uuid op = .ok "11111111-2222-3333-4444-555555555555" ∧
      Operation.property op = .ok "priority" ∧
      Operation.timestamp op = .ok (.time 1700000000) ∧
      Operation.old_value op = .ok (.str "L") ∧
      Operation.value op = .ok (.str "H")) ∧
    (∃ op : TCOperation,
      Operation.update "11111111-2222-3333-4444-555555555555" "priority"
          (.time 1700000000) none none = .ok op ∧
      Operation.old_value op = .ok .nil ∧
      Operation.value op = .ok .nil) := by
  constructor
  · exact c7_update_round_trip "11111111-2222-3333-4444-555555555555" "priority"
      1700000000 (some "L") (some "H") (by decide)
  · obtain ⟨op, h1, _, _, _, h5, h6⟩ :=
      c7_update_round_trip "11111111-2222-3333-4444-555555555555" "priority"
        1700000000 none none (by decide)
    exact ⟨op, h1, h5, h6⟩

/-- In a list whose `f`-keys do not repeat, `find?` on the key of a member
returns exactly that member. -/
theorem find?_key_eq_of_mem {γ δ : Type} [BEq δ] [LawfulBEq δ] (f : γ → δ)
    (l : List γ) (p : γ) (hmem : p ∈ l) (hnd : (l.map f).Nodup) :
    l.find? (fun q => f q == f p) = some p := by
  induction l with
  | nil => cases hmem
  | cons q rest ih =>
    rw [List.map_cons, List.nodup_cons] at hnd
    obtain ⟨hnotin, hnd'⟩ := hnd
    rcases List.mem_cons.mp hmem with rfl | hmem'
    · exact List.find?_cons_of_pos _ (by simp)
    · have hq : (f q == f p) = false := by
        rw [beq_eq_false_iff_ne]
        intro he
        exact hnotin (he ▸ List.mem_map_of_mem f hmem')
      rw [List.find?_cons_of_neg _ (by simp [hq])]
      exact ih hmem' hnd'

/-- A successful `by_index` hit comes from an entry of the mapping. -/
theorem TCWorkingSet.by_index_mem (ws : TCWorkingSet) (i : Nat) (u : Uuid)
    (h : TCWorkingSet.by_index ws i = some u) : (i, u) ∈ ws.entries := by
  unfold TCWorkingSet.by_index at h
  cases hf : ws.entries.find? (fun p => p.1 == i) with
  | none => rw [hf] at h; cases h
  | some p =>
    rw [hf] at h
    have hp : p.1 = i := by simpa using List.find?_some hf
    have hu : p.2 = u := by simpa using h
    have := List.mem_of_find?_eq_some hf
    rwa [show (i, u) = p from by rw [← hp, ← hu]]

/-- A successful `by_uuid` hit comes from an entry of the mapping. -/
theorem TCWorkingSet.by_uuid_mem (ws : TCWorkingSet) (i : Nat) (u : Uuid)
    (h : TCWorkingSet.by_uuid ws u = some i) : (i, u) ∈ ws.entries := by
  unfold TCWorkingSet.by_uuid at h
  cases hf : ws.entries.find? (fun p => p.2 == u) with
  | none => rw [hf] at h; cases h
  | some p =>
    rw [hf] at h
    have hp : p.2 = u := by simpa using List.find?_some hf
    have hu : p.1 = i := by simpa using h
    have := List.mem_of_find?_eq_some hf
    rwa [show (i, u) = p from by rw [← hp, ← hu]]

/-- C8: over a working set whose index and uuid columns are duplicate-free
(the bidirectional mapping of the spec), `by_index` and `by_uuid` are
mutual inverses on the indexed tasks, and for an unused index or an
unknown (well-formed) uuid both return an absent result — the Ruby
wrappers return `nil`, not an error. -/
theorem c8_working_set_inverse (ws : TCWorkingSet) (i : Nat) (u : Uuid)
    (hfst : (ws.entries.map Prod.fst).Nodup)
    (hsnd : (ws.entries.map Prod.snd).Nodup)
    (tb : ThreadBound TCWorkingSet) :
    (TCWorkingSet.by_index ws i = some u ↔ TCWorkingSet.by_uuid ws u = some i) ∧
    ((∀ p ∈ ws.entries, p.1 ≠ i) → TCWorkingSet.by_index ws i = none) ∧
    ((∀ p ∈ ws.entries, p.2 ≠ u) → TCWorkingSet.by_uuid ws u = none) ∧
    ((∀ p ∈ tb.inner.entries, p.1 ≠ i) →
      WorkingSet.by_index tb tb.threadId i = .ok .nil) ∧
    (isCanonicalUuid u = true → (∀ p ∈ tb.inner.entries, p.2 ≠ u) →
      WorkingSet.by_uuid tb tb.threadId u = .ok .nil) := by
  refine ⟨⟨?_, ?_⟩, ?_, ?_, ?_, ?_⟩
  · intro h
    have hmem := TCWorkingSet.by_index_mem ws i u h
    have := find?_key_eq_of_mem Prod.snd ws.entries (i, u) hmem hsnd
    unfold TCWorkingSet.by_uuid
    rw [this]
    rfl
  · intro h
    have hmem := TCWorkingSet.by_uuid_mem ws i u h
    have := find?_key_eq_of_mem Prod.fst ws.entries (i, u) hmem hfst
    unfold TCWorkingSet.by_index
    rw [this]
    rfl
  · intro h
    unfold TCWorkingSet.by_index
    rw [List.find?_eq_none.mpr (fun p hp => by simpa using h p hp)]
    rfl
  · intro h
    unfold TCWorkingSet.by_uuid
    rw [List.find?_eq_none.mpr (fun p hp => by simpa using h p hp)]
    rfl
  · intro h
    have hnone : TCWorkingSet.by_index tb.inner i = none := by
      unfold TCWorkingSet.by_index
      rw [List.find?_eq_none.mpr (fun p hp => by simpa using h p hp)]
      rfl
    unfold WorkingSet.by_index
    rw [ThreadBound.get_self]
    show (match TCWorkingSet.by_index tb.inner i with
      | some uuid => Except.ok (RValue.str uuid)
      | none => Except.ok RValue.nil) = Except.ok RValue.nil
    rw [hnone]
  · intro hu h
    have hnone : TCWorkingSet.by_uuid tb.inner u = none := by
      unfold TCWorkingSet.by_uuid
      rw [List.find?_eq_none.mpr (fun p hp => by simpa using h p hp)]
      rfl
    unfold WorkingSet.by_uuid
    rw [ThreadBound.get_self]
    show (do
      let tc_uuid ← uuid2tc u
      match TCWorkingSet.by_uuid tb.inner tc_uuid with
        | some index => Except.ok (RValue.int index)
        | none => Except.ok RValue.nil) = Except.ok RValue.nil
    rw [show uuid2tc u = .ok u from by simp [uuid2tc, hu]]
    show (match TCWorkingSet.by_uuid tb.inner u with
      | some index => Except.ok (RValue.int index)
      | none => Except.ok RValue.nil) = Except.ok RValue.nil
    rw [hnone]

/-- Witness for C8: in the working set {A at 1, B at 2}, `by_index 1 = A`,
`by_uuid A = 1`, index 99 and an unknown uuid are absent, and the Ruby
wrappers return `nil` for them. -/
theorem c8_working_set_inverse_witness :
    (TCWorkingSet.by_index ⟨[(1, "aaaaaaaa-aaaa-aaaa-aaaa-aaaaaaaaaaaa"),
        (2, "bbbbbbbb-bbbb-bbbb-bbbb-bbbbbbbbbbbb")]⟩ 1 =
          some "aaaaaaaa-aaaa-aaaa-aaaa-aaaaaaaaaaaa" ↔
      TCWorkingSet.by_uuid ⟨[(1, "aaaaaaaa-aaaa-aaaa-aaaa-aaaaaaaaaaaa"),
        (2, "bbbbbbbb-bbbb-bbbb-bbbb-bbbbbbbbbbbb")]⟩
          "aaaaaaaa-aaaa-aaaa-aaaa-aaaaaaaaaaaa" = some 1) ∧
    TCWorkingSet.by_index ⟨[(1, "aaaaaaaa-aaaa-aaaa-aaaa-aaaaaaaaaaaa"),
        (2, "bbbbbbbb-bbbb-bbbb-bbbb-bbbbbbbbbbbb")]⟩ 99 = none ∧
    WorkingSet.by_uuid
        ⟨⟨[(1, "aaaaaaaa-aaaa-aaaa-aaaa-aaaaaaaaaaaa"),
          (2, "bbbbbbbb-bbbb-bbbb-bbbb-bbbbbbbbbbbb")]⟩, 4⟩ 4
        "cccccccc-cccc-cccc-cccc-cccccccccccc" = .ok .nil := by
  have h := c8_working_set_inverse
    ⟨[(1, "aaaaaaaa-aaaa-aaaa-aaaa-aaaaaaaaaaaa"),
      (2, "bbbbbbbb-bbbb-bbbb-bbbb-bbbbbbbbbbbb")]⟩ 1
    "aaaaaaaa-aaaa-aaaa-aaaa-aaaaaaaaaaaa" (by decide) (by decide)
    ⟨⟨[(1, "aaaaaaaa-aaaa-aaaa-aaaa-aaaaaaaaaaaa"),
      (2, "bbbbbbbb-bbbb-bbbb-bbbb-bbbbbbbbbbbb")]⟩, 4⟩
  have h99 := c8_working_set_inverse
    ⟨[(1, "aaaaaaaa-aaaa-aaaa-aaaa-aaaaaaaaaaaa"),
      (2, "bbbbbbbb-bbbb-bbbb-bbbb-bbbbbbbbbbbb")]⟩ 99
    "cccccccc-cccc-cccc-cccc-cccccccccccc" (by decide) (by decide)
    ⟨⟨[(1, "aaaaaaaa-aaaa-aaaa-aaaa-aaaaaaaaaaaa"),
      (2, "bbbbbbbb-bbbb-bbbb-bbbb-bbbbbbbbbbbb")]⟩, 4⟩
  exact ⟨h.1, h99.2.1 (by decide), h99.2.2.2.2 (by decide) (by decide)⟩

/-- From a foreign thread, `get` fails with the thread error. -/
theorem ThreadBound.get_foreign (tb : ThreadBound α) (tid : Nat)
    (h : tb.threadId ≠ tid) :
    (ThreadBound.get tb tid).1 =
      .error ⟨.threadError, "Object cannot be accessed from a different thread"⟩ := by
  simp [ThreadBound.get, ThreadBound.check_thread, h]

/-- From a foreign thread, `extend_from_tc` fails before appending. -/
theorem Operations.extend_from_tc_foreign (tb : Operations) (tid : Nat)
    (tc_ops : List TCOperation) (h : tb.threadId ≠ tid) :
    Operations.extend_from_tc tb tid tc_ops =
      .error ⟨.threadError, "Object cannot be accessed from a different thread"⟩ := by
  unfold Operations.extend_from_tc
  rw [ThreadBound.get_foreign tb tid h]
  rfl

/-- C9: when appending the engine-produced records to the supplied log
fails (here: the log is confined to a different thread than the replica),
`Replica::create_task` drops that failure and still returns the new task,
leaving the log without the Create record, while `TaskData::create` with
the same failing log propagates the error instead of succeeding. -/
theorem c9_create_task_swallows_append_failure {ε : Type}
    (engineCreate : Uuid → ε → Except String (TCTask × List TCOperation × ε))
    (engineCreateData : Uuid → TCTask × List TCOperation)
    (replicaTb : ThreadBound ε) (opsTb : Operations) (uuid : String)
    (task : TCTask) (tcOps : List TCOperation) (engine2 : ε)
    (hu : isCanonicalUuid uuid = true)
    (hthread : opsTb.threadId ≠ replicaTb.threadId)
    (hcreate : engineCreate uuid replicaTb.inner = .ok (task, tcOps, engine2)) :
    Replica.create_task engineCreate replicaTb opsTb replicaTb.threadId uuid =
      (.ok task, ⟨engine2, replicaTb.threadId⟩, opsTb) ∧
    create_task_data engineCreateData opsTb replicaTb.threadId uuid =
      .error ⟨.threadError, "Object cannot be accessed from a different thread"⟩ := by
  have huuid : uuid2tc uuid = .ok uuid := by simp [uuid2tc, hu]
  constructor
  · unfold Replica.create_task
    rw [ThreadBound.get_mut_self]
    show (match uuid2tc uuid with
      | .error e => ((Except.error e : Except RbError TCTask), replicaTb, opsTb)
      | .ok tc_uuid =>
        match engineCreate tc_uuid replicaTb.inner with
        | .error m => (.error (into_error m), replicaTb, opsTb)
        | .ok (tc_task, tc_ops, engine3) =>
          (Except.ok tc_task, (⟨engine3, replicaTb.threadId⟩ : ThreadBound ε),
            match Operations.extend_from_tc opsTb replicaTb.threadId tc_ops with
            | .ok tb => tb
            | .error _ => opsTb)) =
      (.ok task, ⟨engine2, replicaTb.threadId⟩, opsTb)
    rw [huuid]
    show (match engineCreate uuid replicaTb.inner with
      | .error m => ((Except.error (into_error m) : Except RbError TCTask), replicaTb, opsTb)
      | .ok (tc_task, tc_ops, engine3) =>
        (Except.ok tc_task, (⟨engine3, replicaTb.threadId⟩ : ThreadBound ε),
          match Operations.extend_from_tc opsTb replicaTb.threadId tc_ops with
          | .ok tb => tb
          | .error _ => opsTb)) =
      (.ok task, ⟨engine2, replicaTb.threadId⟩, opsTb)
    rw [hcreate]
    show (Except.ok task, (⟨engine2, replicaTb.threadId⟩ : ThreadBound ε),
        match Operations.extend_from_tc opsTb replicaTb.threadId tcOps with
        | .ok tb => tb
        | .error _ => opsTb) =
      (.ok task, ⟨engine2, replicaTb.threadId⟩, opsTb)
    rw [Operations.extend_from_tc_foreign opsTb replicaTb.threadId tcOps hthread]
  · unfold create_task_data
    rw [huuid]
    show (do
      let opsTb' ← Operations.extend_from_tc opsTb replicaTb.threadId
        (engineCreateData uuid).2
      Except.ok ((engineCreateData uuid).1, opsTb')) =
      .error ⟨.threadError, "Object cannot be accessed from a different thread"⟩
    rw [Operations.extend_from_tc_foreign opsTb replicaTb.threadId
      (engineCreateData uuid).2 hthread]
    rfl

/-- Witness for C9: a replica on thread 1 and a log confined to thread 2;
`create_task` succeeds and the log stays empty, `TaskData.create` fails
with the thread error. -/
theorem c9_create_task_swallows_append_failure_witness :
    Replica.create_task
        (fun u e => .ok (⟨u, "", "", []⟩, [TCOperation.create u], e + 1))
        (⟨(0 : Nat), 1⟩ : ThreadBound Nat) ⟨[], 2⟩ 1
        "dddddddd-dddd-dddd-dddd-dddddddddddd" =
      (.ok ⟨"dddddddd-dddd-dddd-dddd-dddddddddddd", "", "", []⟩, ⟨1, 1⟩,
        (⟨[], 2⟩ : Operations)) ∧
    create_task_data
        (fun u => (⟨u, "", "", []⟩, [TCOperation.create u]))
        (⟨[], 2⟩ : Operations) 1 "dddddddd-dddd-dddd-dddd-dddddddddddd" =
      .error ⟨.threadError, "Object cannot be accessed from a different thread"⟩ :=
  c9_create_task_swallows_append_failure
    (fun u e => .ok (⟨u, "", "", []⟩, [TCOperation.create u], e + 1))
    (fun u => (⟨u, "", "", []⟩, [TCOperation.create u]))
    (⟨(0 : Nat), 1⟩ : ThreadBound Nat) ⟨[], 2⟩
    "dddddddd-dddd-dddd-dddd-dddddddddddd"
    ⟨"dddddddd-dddd-dddd-dddd-dddddddddddd", "", "", []⟩
    [TCOperation.create "dddddddd-dddd-dddd-dddd-dddddddddddd"] 1
    (by decide) (by decide) rfl

/-- C10: every public operation taking a uuid string (`Operation.create`,
`Operation.delete`, `Operation.update`, `Replica.create_task`,
`Replica.task`, `Replica.task_data`, `WorkingSet.by_uuid`,
`DependencyMap.dependencies`, `DependencyMap.dependents`) rejects a
string that does not parse as a UUID with a `ValidationError` whose
message names the invalid string — not an absent result — and leaves the
receiver's state unchanged. -/
theorem c10_invalid_uuid_validation {ε τ : Type}
    (s : String) (hs : isCanonicalUuid s = false)
    (old_task : List (String × String)) (t : Int)
    (engineCreate : Uuid → ε → Except String (TCTask × List TCOperation × ε))
    (engineGetT : Uuid → ε → Except String (Option TCTask))
    (engineGetD : Uuid → ε → Except String (Option τ))
    (replicaTb : ThreadBound ε) (opsTb : Operations)
    (wsTb : ThreadBound TCWorkingSet) (dmTb : ThreadBound TCDependencyMap) :
    strContains (invalidUuidErr s).msg s = true ∧
    (invalidUuidErr s).kind = .validationError ∧
    Operation.create s = .error (invalidUuidErr s) ∧
    Operation.delete s old_task = .error (invalidUuidErr s) ∧
    Operation.update s "priority" (.time t) none none = .error (invalidUuidErr s) ∧
    Replica.create_task engineCreate replicaTb opsTb replicaTb.threadId s =
      (.error (invalidUuidErr s), replicaTb, opsTb) ∧
    Replica.task engineGetT replicaTb replicaTb.threadId s =
      (.error (invalidUuidErr s), replicaTb) ∧
    Replica.task_data engineGetD replicaTb replicaTb.threadId s =
      (.error (invalidUuidErr s), replicaTb) ∧
    WorkingSet.by_uuid wsTb wsTb.threadId s = .error (invalidUuidErr s) ∧
    DependencyMap.dependencies dmTb dmTb.threadId s = .error (invalidUuidErr s) ∧
    DependencyMap.dependents dmTb dmTb.threadId s = .error (invalidUuidErr s) := by
  have herr : uuid2tc s = .error (invalidUuidErr s) := by simp [uuid2tc, hs]
  refine ⟨?_, rfl, ?_, ?_, ?_, ?_, ?_, ?_, ?_, ?_, ?_⟩
  · rw [strContains, listContainsSub_iff]
    refine ⟨"Invalid UUID format: '".data,
      "'. Expected format: xxxxxxxx-xxxx-xxxx-xxxx-xxxxxxxxxxxx".data, ?_⟩
    show "Invalid UUID format: '".data ++ s.data ++
        "'. Expected format: xxxxxxxx-xxxx-xxxx-xxxx-xxxxxxxxxxxx".data =
      ("Invalid UUID format: '" ++ s ++
        "'. Expected format: xxxxxxxx-xxxx-xxxx-xxxx-xxxxxxxxxxxx").data
    simp [String.data_append]
  · unfold Operation.create
    rw [herr]
    rfl
  · unfold Operation.delete
    rw [herr]
    rfl
  · unfold Operation.update
    show (do
      let u ← uuid2tc s
      Except.ok (TCOperation.update u "priority" t none none)) =
      .error (invalidUuidErr s)
    rw [herr]
    rfl
  · unfold Replica.create_task
    rw [ThreadBound.get_mut_self]
    show (match uuid2tc s with
      | .error e => ((Except.error e : Except RbError TCTask), replicaTb, opsTb)
      | .ok tc_uuid =>
        match engineCreate tc_uuid replicaTb.inner with
        | .error m => (.error (into_error m), replicaTb, opsTb)
        | .ok (tc_task, tc_ops, engine3) =>
          (Except.ok tc_task, (⟨engine3, replicaTb.threadId⟩ : ThreadBound ε),
            match Operations.extend_from_tc opsTb replicaTb.threadId tc_ops with
            | .ok tb => tb
            | .error _ => opsTb)) =
      (.error (invalidUuidErr s), replicaTb, opsTb)
    rw [herr]
  · unfold Replica.task
    rw [ThreadBound.get_mut_self]
    show (match uuid2tc s with
      | .error e => ((Except.error e : Except RbError (Option TCTask)), replicaTb)
      | .ok tc_uuid =>
        match engineGetT tc_uuid replicaTb.inner with
        | .error m => (.error (into_error m), replicaTb)
        | .ok t' => (.ok t', replicaTb)) =
      (.error (invalidUuidErr s), replicaTb)
    rw [herr]
  · unfold Replica.task_data
    rw [ThreadBound.get_mut_self]
    show (match uuid2tc s with
      | .error e => ((Except.error e : Except RbError (Option τ)), replicaTb)
      | .ok tc_uuid =>
        match engineGetD tc_uuid replicaTb.inner with
        | .error m => (.error (into_error m), replicaTb)
        | .ok t' => (.ok t', replicaTb)) =
      (.error (invalidUuidErr s), replicaTb)
    rw [herr]
  · unfold WorkingSet.by_uuid
    rw [ThreadBound.get_self]
    show (do
      let tc_uuid ← uuid2tc s
      match TCWorkingSet.by_uuid wsTb.inner tc_uuid with
        | some index => Except.ok (RValue.int index)
        | none => Except.ok RValue.nil) = .error (invalidUuidErr s)
    rw [herr]
    rfl
  · unfold DependencyMap.dependencies
    rw [ThreadBound.get_self]
    show (do
      let tc_uuid ← uuid2tc s
      Except.ok (TCDependencyMap.dependencies dmTb.inner tc_uuid)) =
      .error (invalidUuidErr s)
    rw [herr]
    rfl
  · unfold DependencyMap.dependents
    rw [ThreadBound.get_self]
    show (do
      let tc_uuid ← uuid2tc s
      Except.ok (TCDependencyMap.dependents dmTb.inner tc_uuid)) =
      .error (invalidUuidErr s)
    rw [herr]
    rfl

/-- Witness for C10: the string "not-a-uuid" is rejected by
`Operation.create` and `WorkingSet.by_uuid` with the `ValidationError`
naming it, and `create_task` leaves replica and log unchanged. -/
theorem c10_invalid_uuid_validation_witness :
    Operation.create "not-a-uuid" = .error (invalidUuidErr "not-a-uuid") ∧
    strContains (invalidUuidErr "not-a-uuid").msg "not-a-uuid" = true ∧
    WorkingSet.by_uuid ⟨⟨[]⟩, 6⟩ 6 "not-a-uuid" =
      .error (invalidUuidErr "not-a-uuid") ∧
    Replica.create_task (fun u e => .ok (⟨u, "", "", []⟩, [], e))
        (⟨(0 : Nat), 1⟩ : ThreadBound Nat) ⟨[], 1⟩ 1 "not-a-uuid" =
      (.error (invalidUuidErr "not-a-uuid"), ⟨0, 1⟩, (⟨[], 1⟩ : Operations)) := by
  have h := c10_invalid_uuid_validation (τ := Nat) "not-a-uuid" (by decide) [] 0
    (fun u e => .ok (⟨u, "", "", []⟩, [], e))
    (fun _ _ => .ok none) (fun _ _ => .ok none)
    (⟨(0 : Nat), 1⟩ : ThreadBound Nat) ⟨[], 1⟩ ⟨⟨[]⟩, 6⟩ ⟨⟨[]⟩, 7⟩
  exact ⟨h.2.2.1, h.1, h.2.2.2.2.2.2.2.2.1, h.2.2.2.2.2.1⟩

end TCRB
